import Mathlib

/-
Verification of the `Tool` dispatcher from kiss-ai-stack-core
(src/kiss_ai_stack/core/tools/tool.py) against its specification.

Shallow embedding notes.
The Python class `Tool` holds a kind tag, an AI client and an optional
vector database, and exposes `store_docs` and `process_query`.  The two
collaborators are abstract capabilities; here they are records of pure
functions returning `Except ε`, with the error type `ε` left abstract so
that error propagation "unchanged" is expressible.  Exceptions that the
method body itself raises (attribute access on a missing vector database,
indexing an empty `documents` list) are the extra constructors of
`ToolError`.  Each method is translated to a pure function returning the
post-state of the object, the trace of collaborator calls and log lines it
emitted, and its `Except` outcome; Python `return None` is the `Option`
value `none` in the success type.
-/

namespace KissAiStack

/-- Tool kind tag, the enumeration with members RAG and PROMPT. -/
inductive ToolKind where
  | RAG
  | PROMPT
deriving DecidableEq

/-- Rendering of a `ToolKind` as Python renders the enum member inside an
f-string, used by the log line of `process_query` and of `__init__`. -/
def ToolKind.str : ToolKind → String
  | ToolKind.RAG => "ToolKind.RAG"
  | ToolKind.PROMPT => "ToolKind.PROMPT"

/-- Shape of the value returned by the vector database `retrieve`
capability: a mapping with keys `documents` (a sequence of sequences of
strings), `metadatas` and `distances`.  `μ` is the type of one metadata
entry, `δ` the numeric type of one distance. -/
structure RetrieveResult (μ δ : Type) where
  documents : List (List String)
  metadatas : List μ
  distances : List δ
deriving DecidableEq

/-- Modelled from the spec: the `ToolResponse` value object lives in
`kiss_ai_stack.core.models.core.rag_response`, which is not among the
sources; the spec describes it as `answer: string` plus optional
`docs`, `metadata` and `distances` fields that stay empty in the PROMPT
branch, so the optional fields default to `none`. -/
structure ToolResponse (μ δ : Type) where
  answer : String
  docs : Option (List String)
  metadata : Option (List μ)
  distances : Option (List δ)
deriving DecidableEq

/-- The AI client capability: `generate_answer(query, context)`.  The
context parameter is optional in Python; `none` here is a call that does
not pass it, as the PROMPT branch does. -/
structure AIClientAbc (ε : Type) where
  generate_answer : String → Option (List String) → Except ε String

/-- The vector database capability: `push(documents, metadata_list)`
returning generated identifiers, and `retrieve(query)` returning a
`RetrieveResult`. -/
structure VectorDBAbc (ε μ δ : Type) where
  push : List String → List μ → Except ε (List String)
  retrieve : String → Except ε (RetrieveResult μ δ)

/-- Errors that escape a `Tool` method: either a collaborator error
`e : ε` re-raised unchanged (`collab e`), the attribute error from
calling `retrieve` on an absent (`None`) vector database, or the index
error from taking element 0 of `documents` when `documents` is empty. -/
inductive ToolError (ε : Type) where
  | collab : ε → ToolError ε
  | noneAccess : ToolError ε
  | indexError : ToolError ε
deriving DecidableEq

/-- One observable event of a method run: a collaborator call with its
exact arguments, or an emitted log line. -/
inductive Event (μ : Type) where
  | retrieveCall : String → Event μ
  | generateCall : String → Option (List String) → Event μ
  | pushCall : List String → List μ → Event μ
  | log : String → Event μ
deriving DecidableEq

/-- Whether an event is a call to the vector database capability. -/
def Event.isVectorDbCall {μ : Type} : Event μ → Bool
  | Event.retrieveCall _ => true
  | Event.pushCall _ _ => true
  | _ => false

/-- Whether an event is a call to the AI client capability. -/
def Event.isGenerateCall {μ : Type} : Event μ → Bool
  | Event.generateCall _ _ => true
  | _ => false

/-- The log lines of a trace, in order, without the call events. -/
def logsOf {μ : Type} : List (Event μ) → List String
  | [] => []
  | Event.log m :: tr => m :: logsOf tr
  | _ :: tr => logsOf tr

/-- The `Tool` aggregate: kind tag, AI client, optional vector database.
These are the only fields of the Python class. -/
structure Tool (ε μ δ : Type) where
  tool_kind : ToolKind
  ai_client : AIClientAbc ε
  vector_db : Option (VectorDBAbc ε μ δ)

/-- Outcome of one method run: the post-state of the object, the trace of
events, and the `Except` result. -/
def MethodRun (ε μ δ α : Type) : Type :=
  Tool ε μ δ × List (Event μ) × Except (ToolError ε) α

/-- Post-state component of a run. -/
def runTool {ε μ δ α : Type} (r : MethodRun ε μ δ α) : Tool ε μ δ := r.1

/-- Trace component of a run. -/
def runTrace {ε μ δ α : Type} (r : MethodRun ε μ δ α) : List (Event μ) := r.2.1

/-- Result component of a run. -/
def runResult {ε μ δ α : Type} (r : MethodRun ε μ δ α) : Except (ToolError ε) α := r.2.2

/-- Log lines of a run. -/
def runLogs {ε μ δ α : Type} (r : MethodRun ε μ δ α) : List String := logsOf (runTrace r)

/-- Translation of `Tool.__init__`: assigns the three fields and logs the
kind.  The constructor body performs no validation and cannot fail, which
the total (non-`Except`) return type records. -/
def Tool.init {ε μ δ : Type} (tool_kind : ToolKind) (ai_client : AIClientAbc ε)
    (vector_db : Option (VectorDBAbc ε μ δ)) : Tool ε μ δ × List (Event μ) :=
  (⟨tool_kind, ai_client, vector_db⟩,
   [Event.log ("Tool :: Tool initialized with kind: " ++ ToolKind.str tool_kind)])

/-- Translation of `Tool.store_docs`.  If the vector database is present
it logs the document count, forwards `documents` and `metadata_list` to
`push`, and returns the identifiers; a `push` failure is logged with the
message of the error (`str(e)`, here `toString e`) and re-raised
unchanged.  If the vector database is absent it only logs an error line
and falls off the end of the function, returning Python `None`
(`Except.ok none`). -/
def Tool.store_docs {ε μ δ : Type} [ToString ε] (t : Tool ε μ δ)
    (documents : List String) (metadata_list : List μ) :
    MethodRun ε μ δ (Option (List String)) :=
  match t.vector_db with
  | some db =>
    match db.push documents metadata_list with
    | Except.ok ids =>
      (t, [Event.log ("Tool :: Storing " ++ toString documents.length ++
             " documents in the vector database."),
           Event.pushCall documents metadata_list,
           Event.log "Tool :: Documents successfully stored. IDs generated."],
       Except.ok (some ids))
    | Except.error e =>
      (t, [Event.log ("Tool :: Storing " ++ toString documents.length ++
             " documents in the vector database."),
           Event.pushCall documents metadata_list,
           Event.log ("Tool :: Failed to store documents: " ++ toString e)],
       Except.error (ToolError.collab e))
  | none =>
    (t, [Event.log "Tool :: Vector DB has not been initialized."],
     Except.ok none)

/-- Translation of `Tool.process_query`.  The local `tool_response`
starts as Python `None`; the RAG branch retrieves, takes the first
`documents` sub-sequence as `chunks`, generates an answer with `chunks`
as context and assembles a full `ToolResponse`; the PROMPT (else) branch
generates with no context and assembles a `ToolResponse` with only the
answer.  Every exception inside the `try` block is logged with the fixed
line `Tool :: Failed to process query` and re-raised unchanged. -/
def Tool.process_query {ε μ δ : Type} (t : Tool ε μ δ) (q : String) :
    MethodRun ε μ δ (Option (ToolResponse μ δ)) :=
  match t.tool_kind with
  | ToolKind.RAG =>
    match t.vector_db with
    | none =>
      (t, [Event.log ("Processing query with tool kind: " ++ ToolKind.str t.tool_kind),
           Event.log "Tool :: Performing retrieval-augmented generation (RAG) for query processing.",
           Event.log "Tool :: Failed to process query"],
       Except.error ToolError.noneAccess)
    | some db =>
      match db.retrieve q with
      | Except.error e =>
        (t, [Event.log ("Processing query with tool kind: " ++ ToolKind.str t.tool_kind),
             Event.log "Tool :: Performing retrieval-augmented generation (RAG) for query processing.",
             Event.retrieveCall q,
             Event.log "Tool :: Failed to process query"],
         Except.error (ToolError.collab e))
      | Except.ok chunk_result =>
        match chunk_result.documents with
        | [] =>
          (t, [Event.log ("Processing query with tool kind: " ++ ToolKind.str t.tool_kind),
               Event.log "Tool :: Performing retrieval-augmented generation (RAG) for query processing.",
               Event.retrieveCall q,
               Event.log "Tool :: Failed to process query"],
           Except.error ToolError.indexError)
        | chunks :: _ =>
          match t.ai_client.generate_answer q (some chunks) with
          | Except.error e =>
            (t, [Event.log ("Processing query with tool kind: " ++ ToolKind.str t.tool_kind),
                 Event.log "Tool :: Performing retrieval-augmented generation (RAG) for query processing.",
                 Event.retrieveCall q,
                 Event.log "Tool :: Retrieved chunk metadata, not logging content.",
                 Event.generateCall q (some chunks),
                 Event.log "Tool :: Failed to process query"],
             Except.error (ToolError.collab e))
          | Except.ok answer =>
            (t, [Event.log ("Processing query with tool kind: " ++ ToolKind.str t.tool_kind),
                 Event.log "Tool :: Performing retrieval-augmented generation (RAG) for query processing.",
                 Event.retrieveCall q,
                 Event.log "Tool :: Retrieved chunk metadata, not logging content.",
                 Event.generateCall q (some chunks),
                 Event.log "Tool :: Answer generated by AI client, not logging content."],
             Except.ok (some ⟨answer, some chunks,
               some chunk_result.metadatas, some chunk_result.distances⟩))
  | ToolKind.PROMPT =>
    match t.ai_client.generate_answer q none with
    | Except.error e =>
      (t, [Event.log ("Processing query with tool kind: " ++ ToolKind.str t.tool_kind),
           Event.log "Tool :: Using direct prompt mode for query processing.",
           Event.generateCall q none,
           Event.log "Tool :: Failed to process query"],
       Except.error (ToolError.collab e))
    | Except.ok answer =>
      (t, [Event.log ("Processing query with tool kind: " ++ ToolKind.str t.tool_kind),
           Event.log "Tool :: Using direct prompt mode for query processing.",
           Event.generateCall q none,
           Event.log "Tool :: Answer generated by AI client, ****"],
       Except.ok (some ⟨answer, none, none, none⟩))

/-- Abstract status of one `process_query` run: which branch runs and
which step, if any, fails.  It records no query, chunk, metadata or
answer content. -/
inductive PQShape where
  | promptErr
  | promptOk
  | ragNoDb
  | ragRetrieveErr
  | ragEmptyDocs
  | ragGenErr
  | ragOk
deriving DecidableEq

/-- The tool kind a `process_query` status belongs to. -/
def PQShape.kind : PQShape → ToolKind
  | PQShape.promptErr => ToolKind.PROMPT
  | PQShape.promptOk => ToolKind.PROMPT
  | _ => ToolKind.RAG

/-- Observation function: the status of the `process_query` run of `t`
on `q`, read off from the collaborator outcomes. -/
def pqShape {ε μ δ : Type} (t : Tool ε μ δ) (q : String) : PQShape :=
  match t.tool_kind with
  | ToolKind.RAG =>
    match t.vector_db with
    | none => PQShape.ragNoDb
    | some db =>
      match db.retrieve q with
      | Except.error _ => PQShape.ragRetrieveErr
      | Except.ok chunk_result =>
        match chunk_result.documents with
        | [] => PQShape.ragEmptyDocs
        | chunks :: _ =>
          match t.ai_client.generate_answer q (some chunks) with
          | Except.error _ => PQShape.ragGenErr
          | Except.ok _ => PQShape.ragOk
  | ToolKind.PROMPT =>
    match t.ai_client.generate_answer q none with
    | Except.error _ => PQShape.promptErr
    | Except.ok _ => PQShape.promptOk

/-- The log lines a `process_query` run emits, as a function of its
status alone. -/
def pqExpectedLogs (s : PQShape) : List String :=
  match s with
  | PQShape.promptErr =>
    ["Processing query with tool kind: " ++ ToolKind.str ToolKind.PROMPT,
     "Tool :: Using direct prompt mode for query processing.",
     "Tool :: Failed to process query"]
  | PQShape.promptOk =>
    ["Processing query with tool kind: " ++ ToolKind.str ToolKind.PROMPT,
     "Tool :: Using direct prompt mode for query processing.",
     "Tool :: Answer generated by AI client, ****"]
  | PQShape.ragNoDb =>
    ["Processing query with tool kind: " ++ ToolKind.str ToolKind.RAG,
     "Tool :: Performing retrieval-augmented generation (RAG) for query processing.",
     "Tool :: Failed to process query"]
  | PQShape.ragRetrieveErr =>
    ["Processing query with tool kind: " ++ ToolKind.str ToolKind.RAG,
     "Tool :: Performing retrieval-augmented generation (RAG) for query processing.",
     "Tool :: Failed to process query"]
  | PQShape.ragEmptyDocs =>
    ["Processing query with tool kind: " ++ ToolKind.str ToolKind.RAG,
     "Tool :: Performing retrieval-augmented generation (RAG) for query processing.",
     "Tool :: Failed to process query"]
  | PQShape.ragGenErr =>
    ["Processing query with tool kind: " ++ ToolKind.str ToolKind.RAG,
     "Tool :: Performing retrieval-augmented generation (RAG) for query processing.",
     "Tool :: Retrieved chunk metadata, not logging content.",
     "Tool :: Failed to process query"]
  | PQShape.ragOk =>
    ["Processing query with tool kind: " ++ ToolKind.str ToolKind.RAG,
     "Tool :: Performing retrieval-augmented generation (RAG) for query processing.",
     "Tool :: Retrieved chunk metadata, not logging content.",
     "Tool :: Answer generated by AI client, not logging content."]

/-- Abstract status of one `store_docs` run: whether a vector database is
present, the document count, whether `push` fails, and on failure the
rendered message of the error, which the failure log line contains. -/
inductive SDShape where
  | noDb
  | pushOk : Nat → SDShape
  | pushErr : Nat → String → SDShape
deriving DecidableEq

/-- Observation function: the status of the `store_docs` run of `t` on
the given inputs. -/
def sdShape {ε μ δ : Type} [ToString ε] (t : Tool ε μ δ)
    (documents : List String) (metadata_list : List μ) : SDShape :=
  match t.vector_db with
  | none => SDShape.noDb
  | some db =>
    match db.push documents metadata_list with
    | Except.ok _ => SDShape.pushOk documents.length
    | Except.error e => SDShape.pushErr documents.length (toString e)

/-- The log lines a `store_docs` run emits, as a function of its status
alone. -/
def sdExpectedLogs (s : SDShape) : List String :=
  match s with
  | SDShape.noDb => ["Tool :: Vector DB has not been initialized."]
  | SDShape.pushOk n =>
    ["Tool :: Storing " ++ toString n ++ " documents in the vector database.",
     "Tool :: Documents successfully stored. IDs generated."]
  | SDShape.pushErr n emsg =>
    ["Tool :: Storing " ++ toString n ++ " documents in the vector database.",
     "Tool :: Failed to store documents: " ++ emsg]

/-- Concrete AI client answering every call with the string ans. -/
def okAi : AIClientAbc String :=
  ⟨fun _ _ => Except.ok "ans"⟩

/-- Concrete AI client failing every call with error ge. -/
def errAi : AIClientAbc String :=
  ⟨fun _ _ => Except.error "ge"⟩

/-- Concrete vector database: `push` yields two identifiers, `retrieve`
yields two chunks, two metadata entries and two distances. -/
def db0 : VectorDBAbc String Nat Int :=
  ⟨fun _ _ => Except.ok ["id1", "id2"],
   fun _ => Except.ok ⟨[["chunk1", "chunk2"]], [1, 2], [10, 20]⟩⟩

/-- Concrete vector database failing both operations. -/
def errDb : VectorDBAbc String Nat Int :=
  ⟨fun _ _ => Except.error "pe", fun _ => Except.error "re"⟩

/-- Concrete vector database whose `retrieve` yields an empty
`documents` sequence: a malformed retrieval result. -/
def emptyDb : VectorDBAbc String Nat Int :=
  ⟨fun _ _ => Except.ok [], fun _ => Except.ok ⟨[], [], []⟩⟩

/-- Concrete vector database whose `push` failure message embeds the
content of the documents being stored. -/
def leakDb : VectorDBAbc String Nat Int :=
  ⟨fun documents _ => Except.error (String.join documents),
   fun _ => Except.error "re"⟩

/-- RAG tool over `db0` and `okAi`. -/
def tool1 : Tool String Nat Int := ⟨ToolKind.RAG, okAi, some db0⟩

/-- PROMPT tool with no vector database. -/
def toolP : Tool String Nat Int := ⟨ToolKind.PROMPT, okAi, none⟩

/-- RAG tool whose retrieval fails. -/
def toolRagRErr : Tool String Nat Int := ⟨ToolKind.RAG, okAi, some errDb⟩

/-- RAG tool whose retrieval succeeds and whose generation fails. -/
def toolRagGErr : Tool String Nat Int := ⟨ToolKind.RAG, errAi, some db0⟩

/-- RAG tool whose retrieval yields an empty `documents` sequence. -/
def toolRagEmpty : Tool String Nat Int := ⟨ToolKind.RAG, okAi, some emptyDb⟩

/-- PROMPT tool whose generation fails. -/
def toolPErr : Tool String Nat Int := ⟨ToolKind.PROMPT, errAi, none⟩

/-- Tool with a vector database whose `push` fails. -/
def toolStoreErr : Tool String Nat Int := ⟨ToolKind.PROMPT, okAi, some errDb⟩

/-- Tool over `leakDb`: its `store_docs` failure log line embeds document
content. -/
def leakTool : Tool String Nat Int := ⟨ToolKind.PROMPT, okAi, some leakDb⟩

/-- RAG tool with no vector database. -/
def toolRagNoDb : Tool String Nat Int := ⟨ToolKind.RAG, okAi, none⟩

/-- A `process_query` run leaves the object unchanged: the method body
never assigns to a field. -/
theorem process_query_fst {ε μ δ : Type} (t : Tool ε μ δ) (q : String) :
    (Tool.process_query t q).1 = t := by
  obtain ⟨k, ai, vdb⟩ := t
  cases k with
  | RAG =>
    cases vdb with
    | none => rfl
    | some db =>
      cases hr : db.retrieve q with
      | error e => simp [Tool.process_query, hr]
      | ok chunk_result =>
        cases hd : chunk_result.documents with
        | nil => simp [Tool.process_query, hr, hd]
        | cons chunks rest =>
          cases hg : ai.generate_answer q (some chunks) with
          | error e => simp [Tool.process_query, hr, hd, hg]
          | ok a => simp [Tool.process_query, hr, hd, hg]
  | PROMPT =>
    cases hg : ai.generate_answer q none with
    | error e => simp [Tool.process_query, hg]
    | ok a => simp [Tool.process_query, hg]

/-- A `store_docs` run leaves the object unchanged. -/
theorem store_docs_fst {ε μ δ : Type} [ToString ε] (t : Tool ε μ δ)
    (documents : List String) (metadata_list : List μ) :
    (Tool.store_docs t documents metadata_list).1 = t := by
  obtain ⟨k, ai, vdb⟩ := t
  cases vdb with
  | none => rfl
  | some db =>
    cases hp : db.push documents metadata_list with
    | error e => simp [Tool.store_docs, hp]
    | ok ids => simp [Tool.store_docs, hp]

/-- The log lines of a `process_query` run are a function of the status
of the run alone. -/
theorem runLogs_process_query {ε μ δ : Type} (t : Tool ε μ δ) (q : String) :
    runLogs (t.process_query q) = pqExpectedLogs (pqShape t q) := by
  obtain ⟨k, ai, vdb⟩ := t
  cases k with
  | RAG =>
    cases vdb with
    | none => rfl
    | some db =>
      cases hr : db.retrieve q with
      | error e =>
        simp [Tool.process_query, pqShape, hr, runLogs, runTrace, logsOf, pqExpectedLogs]
      | ok chunk_result =>
        cases hd : chunk_result.documents with
        | nil =>
          simp [Tool.process_query, pqShape, hr, hd, runLogs, runTrace, logsOf, pqExpectedLogs]
        | cons chunks rest =>
          cases hg : ai.generate_answer q (some chunks) with
          | error e =>
            simp [Tool.process_query, pqShape, hr, hd, hg, runLogs, runTrace, logsOf,
              pqExpectedLogs]
          | ok a =>
            simp [Tool.process_query, pqShape, hr, hd, hg, runLogs, runTrace, logsOf,
              pqExpectedLogs]
  | PROMPT =>
    cases hg : ai.generate_answer q none with
    | error e =>
      simp [Tool.process_query, pqShape, hg, runLogs, runTrace, logsOf, pqExpectedLogs]
    | ok a =>
      simp [Tool.process_query, pqShape, hg, runLogs, runTrace, logsOf, pqExpectedLogs]

/-- The log lines of a `store_docs` run are a function of the status of
the run alone (which, on a `push` failure, includes the rendered error
message). -/
theorem runLogs_store_docs {ε μ δ : Type} [ToString ε] (t : Tool ε μ δ)
    (documents : List String) (metadata_list : List μ) :
    runLogs (t.store_docs documents metadata_list) =
      sdExpectedLogs (sdShape t documents metadata_list) := by
  obtain ⟨k, ai, vdb⟩ := t
  cases vdb with
  | none => rfl
  | some db =>
    cases hp : db.push documents metadata_list with
    | error e =>
      simp [Tool.store_docs, sdShape, hp, runLogs, runTrace, logsOf, sdExpectedLogs]
    | ok ids =>
      simp [Tool.store_docs, sdShape, hp, runLogs, runTrace, logsOf, sdExpectedLogs]

/-- C1: for a Tool with kind RAG and a present vector database, when
`retrieve q` yields a result whose first `documents` sub-sequence is `C`,
whose `metadatas` is `M` and whose `distances` is `D`, and the AI client
answers `a` for query `q` with context `C`, `process_query q` returns a
`ToolResponse` with answer `a`, docs `C`, metadata `M` and distances `D`;
moreover `C` is exactly the context passed to `generate_answer`. -/
theorem C1_rag_success {ε μ δ : Type} (t : Tool ε μ δ) (db : VectorDBAbc ε μ δ)
    (q a : String) (C : List String) (rest : List (List String)) (M : List μ) (D : List δ)
    (hk : t.tool_kind = ToolKind.RAG)
    (hdb : t.vector_db = some db)
    (hr : db.retrieve q = Except.ok ⟨C :: rest, M, D⟩)
    (hg : t.ai_client.generate_answer q (some C) = Except.ok a) :
    runResult (t.process_query q) = Except.ok (some ⟨a, some C, some M, some D⟩) ∧
    Event.generateCall q (some C) ∈ runTrace (t.process_query q) := by
  constructor
  · simp [Tool.process_query, runResult, hk, hdb, hr, hg]
  · simp [Tool.process_query, runTrace, hk, hdb, hr, hg]

/-- Witness for C1 on the concrete tool `tool1`. -/
theorem C1_rag_success_witness :
    runResult (tool1.process_query "q") =
      Except.ok (some ⟨"ans", some ["chunk1", "chunk2"], some [1, 2], some [10, 20]⟩) ∧
    Event.generateCall "q" (some ["chunk1", "chunk2"]) ∈ runTrace (tool1.process_query "q") :=
  C1_rag_success tool1 db0 "q" "ans" ["chunk1", "chunk2"] [] [1, 2] [10, 20]
    rfl rfl rfl rfl

/-- C2: for a Tool with kind PROMPT, `process_query q` calls
`generate_answer` with `q` and no context, never calls the vector
database, and on a successful generation returns a `ToolResponse` whose
answer is the generated string and whose other fields are empty. -/
theorem C2_prompt {ε μ δ : Type} (t : Tool ε μ δ) (q : String)
    (hk : t.tool_kind = ToolKind.PROMPT) :
    Event.generateCall q none ∈ runTrace (t.process_query q) ∧
    (∀ ev ∈ runTrace (t.process_query q), Event.isVectorDbCall ev = false) ∧
    (∀ a, t.ai_client.generate_answer q none = Except.ok a →
      runResult (t.process_query q) = Except.ok (some ⟨a, none, none, none⟩)) := by
  refine ⟨?_, ?_, ?_⟩
  · cases hg : t.ai_client.generate_answer q none with
    | error e => simp [Tool.process_query, runTrace, hk, hg]
    | ok a => simp [Tool.process_query, runTrace, hk, hg]
  · cases hg : t.ai_client.generate_answer q none with
    | error e => simp [Tool.process_query, runTrace, hk, hg, Event.isVectorDbCall]
    | ok a => simp [Tool.process_query, runTrace, hk, hg, Event.isVectorDbCall]
  · intro a hg
    simp [Tool.process_query, runResult, hk, hg]

/-- Witness for C2 on the concrete tool `toolP`. -/
theorem C2_prompt_witness :
    runResult (toolP.process_query "q") = Except.ok (some ⟨"ans", none, none, none⟩) :=
  (C2_prompt toolP "q" rfl).2.2 "ans" rfl

/-- C3: for a Tool with a present vector database, `store_docs` forwards
exactly the given documents and metadata list to `push` and returns the
identifier sequence `push` yields. -/
theorem C3_store_forward {ε μ δ : Type} [ToString ε] (t : Tool ε μ δ)
    (db : VectorDBAbc ε μ δ) (documents : List String) (metadata_list : List μ)
    (hdb : t.vector_db = some db) :
    Event.pushCall documents metadata_list ∈ runTrace (t.store_docs documents metadata_list) ∧
    (∀ ids, db.push documents metadata_list = Except.ok ids →
      runResult (t.store_docs documents metadata_list) = Except.ok (some ids)) := by
  constructor
  · cases hp : db.push documents metadata_list with
    | error e => simp [Tool.store_docs, runTrace, hdb, hp]
    | ok ids => simp [Tool.store_docs, runTrace, hdb, hp]
  · intro ids hp
    simp [Tool.store_docs, runResult, hdb, hp]

/-- Witness for C3 on the concrete tool `tool1`. -/
theorem C3_store_forward_witness :
    runResult (tool1.store_docs ["d1", "d2"] [1, 2]) = Except.ok (some ["id1", "id2"]) :=
  (C3_store_forward tool1 db0 ["d1", "d2"] [1, 2] rfl).2 ["id1", "id2"] rfl

/-- C4: for a Tool with no vector database, `store_docs` does not raise,
invokes no collaborator, and returns Python None: no identifiers and no
failure signal. -/
theorem C4_store_no_db {ε μ δ : Type} [ToString ε] (t : Tool ε μ δ)
    (documents : List String) (metadata_list : List μ)
    (hdb : t.vector_db = none) :
    runResult (t.store_docs documents metadata_list) = Except.ok none ∧
    ∀ ev ∈ runTrace (t.store_docs documents metadata_list),
      Event.isVectorDbCall ev = false ∧ Event.isGenerateCall ev = false := by
  constructor
  · simp [Tool.store_docs, runResult, hdb]
  · simp [Tool.store_docs, runTrace, hdb, Event.isVectorDbCall, Event.isGenerateCall]

/-- Witness for C4 on the concrete tool `toolP`. -/
theorem C4_store_no_db_witness :
    runResult (toolP.store_docs ["d1"] [1]) = Except.ok none :=
  (C4_store_no_db toolP ["d1"] [1] rfl).1

/-- C5: every collaborator failure during `process_query` (vector
retrieval failure, answer-generation failure in either branch) and the
malformed-result index error propagate to the caller unchanged, with no
`ToolResponse` returned; a `push` failure propagates unchanged out of
`store_docs`. -/
theorem C5_error_propagation {ε μ δ : Type} [ToString ε] (t : Tool ε μ δ)
    (db : VectorDBAbc ε μ δ) (q : String) (e : ε)
    (documents : List String) (metadata_list : List μ) :
    (t.tool_kind = ToolKind.RAG → t.vector_db = some db →
      db.retrieve q = Except.error e →
      runResult (t.process_query q) = Except.error (ToolError.collab e)) ∧
    (∀ chunk_result chunks rest, t.tool_kind = ToolKind.RAG → t.vector_db = some db →
      db.retrieve q = Except.ok chunk_result →
      chunk_result.documents = chunks :: rest →
      t.ai_client.generate_answer q (some chunks) = Except.error e →
      runResult (t.process_query q) = Except.error (ToolError.collab e)) ∧
    (∀ chunk_result, t.tool_kind = ToolKind.RAG → t.vector_db = some db →
      db.retrieve q = Except.ok chunk_result →
      chunk_result.documents = [] →
      runResult (t.process_query q) = Except.error ToolError.indexError) ∧
    (t.tool_kind = ToolKind.PROMPT →
      t.ai_client.generate_answer q none = Except.error e →
      runResult (t.process_query q) = Except.error (ToolError.collab e)) ∧
    (t.vector_db = some db → db.push documents metadata_list = Except.error e →
      runResult (t.store_docs documents metadata_list) = Except.error (ToolError.collab e)) := by
  refine ⟨?_, ?_, ?_, ?_, ?_⟩
  · intro hk hdb hr
    simp [Tool.process_query, runResult, hk, hdb, hr]
  · intro chunk_result chunks rest hk hdb hr hd hg
    simp [Tool.process_query, runResult, hk, hdb, hr, hd, hg]
  · intro chunk_result hk hdb hr hd
    simp [Tool.process_query, runResult, hk, hdb, hr, hd]
  · intro hk hg
    simp [Tool.process_query, runResult, hk, hg]
  · intro hdb hp
    simp [Tool.store_docs, runResult, hdb, hp]

/-- Witness for C5: each of the five failure scenarios at a concrete
tool. -/
theorem C5_error_propagation_witness :
    runResult (toolRagRErr.process_query "q") = Except.error (ToolError.collab "re") ∧
    runResult (toolRagGErr.process_query "q") = Except.error (ToolError.collab "ge") ∧
    runResult (toolRagEmpty.process_query "q") = Except.error ToolError.indexError ∧
    runResult (toolPErr.process_query "q") = Except.error (ToolError.collab "ge") ∧
    runResult (toolStoreErr.store_docs ["d1"] [1]) = Except.error (ToolError.collab "pe") :=
  ⟨(C5_error_propagation toolRagRErr errDb "q" "re" [] []).1 rfl rfl rfl,
   (C5_error_propagation toolRagGErr db0 "q" "ge" [] []).2.1
     ⟨[["chunk1", "chunk2"]], [1, 2], [10, 20]⟩ ["chunk1", "chunk2"] [] rfl rfl rfl rfl rfl,
   (C5_error_propagation toolRagEmpty emptyDb "q" "ge" [] []).2.2.1
     ⟨[], [], []⟩ rfl rfl rfl rfl,
   (C5_error_propagation toolPErr errDb "q" "ge" [] []).2.2.2.1 rfl rfl,
   (C5_error_propagation toolStoreErr errDb "q" "pe" ["d1"] [1]).2.2.2.2 rfl rfl⟩

/-- C6: for a Tool with kind RAG and a present vector database, a
`retrieve` failure propagates unchanged and the AI client is never
called in that invocation. -/
theorem C6_retrieve_error {ε μ δ : Type} (t : Tool ε μ δ) (db : VectorDBAbc ε μ δ)
    (q : String) (e : ε)
    (hk : t.tool_kind = ToolKind.RAG) (hdb : t.vector_db = some db)
    (hr : db.retrieve q = Except.error e) :
    runResult (t.process_query q) = Except.error (ToolError.collab e) ∧
    ∀ ev ∈ runTrace (t.process_query q), Event.isGenerateCall ev = false := by
  constructor
  · simp [Tool.process_query, runResult, hk, hdb, hr]
  · simp [Tool.process_query, runTrace, hk, hdb, hr, Event.isGenerateCall]

/-- Witness for C6 on the concrete tool `toolRagRErr`. -/
theorem C6_retrieve_error_witness :
    runResult (toolRagRErr.process_query "q2") = Except.error (ToolError.collab "re") :=
  (C6_retrieve_error toolRagRErr errDb "q2" "re" rfl rfl rfl).1

/-- C7: constructing a Tool with kind RAG and no vector database
succeeds (the constructor is total and performs no validation), and
every later `process_query` call on it fails, with the None-access error
raised when the absent vector database is used. -/
theorem C7_rag_without_db {ε μ δ : Type} (ai : AIClientAbc ε) (q : String) :
    (Tool.init ToolKind.RAG ai (none : Option (VectorDBAbc ε μ δ))).1.tool_kind = ToolKind.RAG ∧
    (Tool.init ToolKind.RAG ai (none : Option (VectorDBAbc ε μ δ))).1.vector_db = none ∧
    runResult ((Tool.init ToolKind.RAG ai (none : Option (VectorDBAbc ε μ δ))).1.process_query q) =
      Except.error ToolError.noneAccess :=
  ⟨rfl, rfl, rfl⟩

/-- C8: no operation mutates the Tool: both methods return the object
with its three fields unchanged, and repeating a call on the post-state
reproduces the identical run, collaborator calls and result included. -/
theorem C8_stateless {ε μ δ : Type} [ToString ε] (t : Tool ε μ δ) (q : String)
    (documents : List String) (metadata_list : List μ) :
    runTool (t.process_query q) = t ∧
    runTool (t.store_docs documents metadata_list) = t ∧
    (runTool (t.process_query q)).process_query q = t.process_query q ∧
    (runTool (t.store_docs documents metadata_list)).store_docs documents metadata_list =
      t.store_docs documents metadata_list := by
  have h1 : runTool (t.process_query q) = t := process_query_fst t q
  have h2 : runTool (t.store_docs documents metadata_list) = t :=
    store_docs_fst t documents metadata_list
  exact ⟨h1, h2, by rw [h1], by rw [h2]⟩

/-- C9 counterexample: two `store_docs` runs on one tool whose inputs
differ only in document content, with equal document counts and both
failing, emit different log output, and the differing log line embeds
the document content itself. -/
theorem C9_counterexample :
    runLogs (leakTool.store_docs ["alpha"] [0]) ≠ runLogs (leakTool.store_docs ["beta"] [0]) ∧
    (["alpha"] : List String).length = (["beta"] : List String).length ∧
    runResult (leakTool.store_docs ["alpha"] [0]) = Except.error (ToolError.collab "alpha") ∧
    runResult (leakTool.store_docs ["beta"] [0]) = Except.error (ToolError.collab "beta") ∧
    "Tool :: Failed to store documents: alpha" ∈ runLogs (leakTool.store_docs ["alpha"] [0]) := by
  refine ⟨by decide, rfl, rfl, rfl, by decide⟩

/-- C9 (amended): the log output of `process_query` is a function of the
run status alone (branch taken and which step, if any, failed), and the
log output of `store_docs` is a function of its status alone (database
presence, document count, push success or failure) together with, on a
push failure, the rendered message of the raised error, which the
failure log line includes; log output never otherwise depends on query,
document, metadata, chunk or answer content. -/
theorem C9_logs_status_only {ε μ δ : Type} [ToString ε]
    (t1 t2 : Tool ε μ δ) (q1 q2 : String)
    (d1 d2 : List String) (m1 m2 : List μ) :
    (pqShape t1 q1 = pqShape t2 q2 →
      runLogs (t1.process_query q1) = runLogs (t2.process_query q2)) ∧
    (sdShape t1 d1 m1 = sdShape t2 d2 m2 →
      runLogs (t1.store_docs d1 m1) = runLogs (t2.store_docs d2 m2)) := by
  constructor
  · intro h
    rw [runLogs_process_query, runLogs_process_query, h]
  · intro h
    rw [runLogs_store_docs, runLogs_store_docs, h]

/-- Witness for the amended C9 on the concrete tool `toolP`. -/
theorem C9_logs_status_only_witness :
    runLogs (toolP.process_query "a") = runLogs (toolP.process_query "b") ∧
    runLogs (toolP.store_docs ["x"] [1]) = runLogs (toolP.store_docs ["y"] [2]) :=
  ⟨(C9_logs_status_only toolP toolP "a" "b" ["x"] ["y"] [1] [2]).1 rfl,
   (C9_logs_status_only toolP toolP "a" "b" ["x"] ["y"] [1] [2]).2 rfl⟩

/-- C10: whenever `process_query` returns normally, the returned value
is a constructed `ToolResponse`, never the Python None that its declared
return type also admits. -/
theorem C10_never_none {ε μ δ : Type} (t : Tool ε μ δ) (q : String)
    (r : Option (ToolResponse μ δ))
    (h : runResult (t.process_query q) = Except.ok r) : r ≠ none := by
  obtain ⟨k, ai, vdb⟩ := t
  cases k with
  | RAG =>
    cases vdb with
    | none => simp [Tool.process_query, runResult] at h
    | some db =>
      cases hr : db.retrieve q with
      | error e => simp [Tool.process_query, runResult, hr] at h
      | ok chunk_result =>
        cases hd : chunk_result.documents with
        | nil => simp [Tool.process_query, runResult, hr, hd] at h
        | cons chunks rest =>
          cases hg : ai.generate_answer q (some chunks) with
          | error e => simp [Tool.process_query, runResult, hr, hd, hg] at h
          | ok a =>
            simp [Tool.process_query, runResult, hr, hd, hg] at h
            subst h
            simp
  | PROMPT =>
    cases hg : ai.generate_answer q none with
    | error e => simp [Tool.process_query, runResult, hg] at h
    | ok a =>
      simp [Tool.process_query, runResult, hg] at h
      subst h
      simp

/-- Witness for C10 on the concrete tool `toolP`. -/
theorem C10_never_none_witness :
    (some (⟨"ans", none, none, none⟩ : ToolResponse Nat Int) :
      Option (ToolResponse Nat Int)) ≠ none :=
  C10_never_none toolP "q" (some ⟨"ans", none, none, none⟩) rfl

end KissAiStack
